import Mathlib

/-!
Shallow embedding of `internal/component/discovery/aws/ec2.go`: the
`EC2Arguments` configuration model with its `SetToDefault`, `Validate` and
`Convert` methods. The external credential/region probe performed inside
`Validate` (`awsConfig.LoadDefaultConfig` followed by `imds.Client.GetRegion`)
is supplied as an oracle value describing its outcome, and the result record
also reports how many times the probe was attempted and the final state of the
pointer-receiver arguments, so that the mutation behaviour of `Validate` is
visible.
-/

namespace EC2

/-- Configuration for filtering EC2 instances (`EC2Filter` in ec2.go). -/
structure EC2Filter where
  Name : String
  Values : List String
deriving DecidableEq, Repr

/-- Opaque carrier for the shared HTTP client configuration block
(`config.HTTPClientConfig`), an external collaborator: no claim depends on its
fields, so it is modelled as an abstract value that `Convert` carries through
unchanged. -/
structure HTTPClientConfig where
  raw : String
deriving DecidableEq, Repr

/-- Stand-in for `config.DefaultHTTPClientConfig` (external collaborator). -/
def DefaultHTTPClientConfig : HTTPClientConfig := ⟨"default"⟩

/-- Configuration for EC2 based service discovery (`EC2Arguments` in ec2.go).
`time.Duration` is modelled as nanoseconds in `Int`; `alloytypes.Secret` as a
string. `Filters` holds the filter values in source order. -/
structure EC2Arguments where
  Endpoint : String
  Region : String
  AccessKey : String
  SecretKey : String
  Profile : String
  RoleARN : String
  RefreshInterval : Int
  Port : Int
  Filters : List EC2Filter
  HTTPClientConfig : HTTPClientConfig
deriving DecidableEq, Repr

/-- Filter element of the converted backend request (`promaws.EC2Filter`). -/
structure PromEC2Filter where
  Name : String
  Values : List String
deriving DecidableEq, Repr

/-- The converted backend request (`promaws.EC2SDConfig`), holding the fields
`Convert` fills. `model.Duration` and `promcfg.Secret` are numeric/string
casts, so they keep the same carriers as the source fields. -/
structure EC2SDConfig where
  Endpoint : String
  Region : String
  AccessKey : String
  SecretKey : String
  Profile : String
  RoleARN : String
  RefreshInterval : Int
  Port : Int
  Filters : List PromEC2Filter
  HTTPClientConfig : HTTPClientConfig
deriving DecidableEq, Repr

/-- `EC2Arguments.Convert`: field-by-field mapping into `promaws.EC2SDConfig`;
the filter loop appends one `promaws.EC2Filter` per input filter in order. -/
def EC2Arguments.Convert (args : EC2Arguments) : EC2SDConfig :=
  { Endpoint := args.Endpoint
    Region := args.Region
    AccessKey := args.AccessKey
    SecretKey := args.SecretKey
    Profile := args.Profile
    RoleARN := args.RoleARN
    RefreshInterval := args.RefreshInterval
    Port := args.Port
    Filters := args.Filters.map (fun f => { Name := f.Name, Values := f.Values })
    HTTPClientConfig := args.HTTPClientConfig }

/-- The `DefaultEC2SDConfig` variable from ec2.go: `Port: 80`,
`RefreshInterval: 60 * time.Second`, the default HTTP client configuration,
and zero values everywhere else. -/
def DefaultEC2SDConfig : EC2Arguments :=
  { Endpoint := ""
    Region := ""
    AccessKey := ""
    SecretKey := ""
    Profile := ""
    RoleARN := ""
    RefreshInterval := 60 * 1000000000
    Port := 80
    Filters := []
    HTTPClientConfig := DefaultHTTPClientConfig }

/-- `EC2Arguments.SetToDefault`: the Go body is `*args = DefaultEC2SDConfig`,
a wholesale replacement of the receiver. -/
def EC2Arguments.SetToDefault (_args : EC2Arguments) : EC2Arguments :=
  DefaultEC2SDConfig

/-- Outcome of the external credential/region probe inside `Validate`:
`awsConfig.LoadDefaultConfig` may fail with some error, otherwise
`imds.Client.GetRegion` may fail, otherwise it returns a region string. -/
inductive ProbeOutcome where
  | loadConfigError (msg : String)
  | getRegionError
  | success (region : String)
deriving DecidableEq, Repr

/-- The error values `Validate` can return: `rawError` is the error from
`LoadDefaultConfig` propagated as-is by `return err`; the other two are the
`errors.New` values constructed inside `Validate`. -/
inductive ValidateError where
  | rawError (msg : String)
  | regionRequired
  | emptyFilterValues
deriving DecidableEq, Repr

/-- The message carried by each error `Validate` can return. -/
def ValidateError.message : ValidateError → String
  | .rawError msg => msg
  | .regionRequired => "EC2 SD configuration requires a region"
  | .emptyFilterValues => "EC2 SD configuration filter values cannot be empty"

/-- Whether an error is a configuration error constructed by `Validate` itself
(`errors.New`), as opposed to an external error propagated as-is. -/
def ValidateError.isConfigurationError : ValidateError → Bool
  | .rawError _ => false
  | .regionRequired => true
  | .emptyFilterValues => true

/-- The filter loop of `Validate`: walks the filters in order and returns the
empty-values error at the first filter with zero values. -/
def checkFilters : List EC2Filter → Option ValidateError
  | [] => none
  | f :: fs => if f.Values.length = 0 then some .emptyFilterValues else checkFilters fs

/-- Result of one `Validate` call: the returned error (if any), the final
state of the pointer-receiver arguments, and how many times the external
probe was attempted. -/
structure ValidateResult where
  err : Option ValidateError
  args : EC2Arguments
  probeCalls : Nat
deriving DecidableEq, Repr

/-- `EC2Arguments.Validate`, with the external probe outcome supplied as an
oracle. Mirrors the Go control flow: when `Region` is empty the probe runs
first — a `LoadDefaultConfig` error is returned raw, a `GetRegion` error is
replaced by the region-required message, and on success the resolved region
is written into `Region` — and only then does the filter loop run. -/
def EC2Arguments.Validate (args : EC2Arguments) (probe : ProbeOutcome) : ValidateResult :=
  if args.Region = "" then
    match probe with
    | .loadConfigError msg => ⟨some (.rawError msg), args, 1⟩
    | .getRegionError => ⟨some .regionRequired, args, 1⟩
    | .success r =>
      let args := { args with Region := r }
      match checkFilters args.Filters with
      | some e => ⟨some e, args, 1⟩
      | none => ⟨none, args, 1⟩
  else
    match checkFilters args.Filters with
    | some e => ⟨some e, args, 0⟩
    | none => ⟨none, args, 0⟩

/-- The filter loop accepts a list exactly when no filter has zero values. -/
theorem checkFilters_eq_none_iff (fs : List EC2Filter) :
    checkFilters fs = none ↔ ∀ f ∈ fs, f.Values ≠ [] := by
  induction fs with
  | nil => simp [checkFilters]
  | cons f fs ih =>
    by_cases h : f.Values.length = 0
    · simp [checkFilters, h, List.length_eq_zero.mp h]
    · have hne : f.Values ≠ [] := fun hv => h (by simp [hv])
      simp [checkFilters, h, ih, hne]

/-- The filter loop only ever produces the empty-values error. -/
theorem checkFilters_eq_some (fs : List EC2Filter) (e : ValidateError)
    (h : checkFilters fs = some e) : e = .emptyFilterValues := by
  induction fs with
  | nil => simp [checkFilters] at h
  | cons f fs ih =>
    by_cases hl : f.Values.length = 0
    · simp [checkFilters, hl] at h
      exact h.symm
    · simp [checkFilters, hl] at h
      exact ih h

/-- A list containing a filter with zero values is rejected by the filter
loop, with the empty-values error. -/
theorem checkFilters_of_empty (fs : List EC2Filter)
    (h : ∃ f ∈ fs, f.Values = []) :
    checkFilters fs = some .emptyFilterValues := by
  rcases Option.eq_none_or_eq_some (checkFilters fs) with hn | ⟨e, he⟩
  · rcases h with ⟨f, hf, hv⟩
    exact absurd hv ((checkFilters_eq_none_iff fs).mp hn f hf)
  · rw [he, checkFilters_eq_some fs e he]

/-- C1 counterexample: for the configuration with region unset and a single
filter with zero values, `Validate` does attempt the probe (probe count 1),
and when loading credentials fails the returned error is the raw external
error, not a configuration error — so `Validate` neither skips the probe nor
is guaranteed to fail with a `ConfigurationError`. -/
theorem validate_emptyFilter_probe_cex :
    ((({ DefaultEC2SDConfig with Filters := [⟨"tag:env", []⟩] } : EC2Arguments).Validate
        (.loadConfigError "dial tcp: i/o timeout")).probeCalls = 1)
    ∧ ((({ DefaultEC2SDConfig with Filters := [⟨"tag:env", []⟩] } : EC2Arguments).Validate
        (.loadConfigError "dial tcp: i/o timeout")).err
        = some (.rawError "dial tcp: i/o timeout"))
    ∧ ValidateError.isConfigurationError (.rawError "dial tcp: i/o timeout") = false := by
  decide

/-- C1 amended: for every configuration containing a filter with zero values,
if the region is set `Validate` fails with the empty-filter-values
configuration error without attempting the probe; if the region is unset the
probe is attempted first, and when it succeeds `Validate` still fails with
the empty-filter-values configuration error. -/
theorem validate_emptyFilter (args : EC2Arguments) (probe : ProbeOutcome)
    (hf : ∃ f ∈ args.Filters, f.Values = []) :
    (args.Region ≠ "" →
      (args.Validate probe).err = some .emptyFilterValues
      ∧ (args.Validate probe).probeCalls = 0)
    ∧ (args.Region = "" →
      (args.Validate probe).probeCalls = 1
      ∧ ∀ r, probe = .success r → (args.Validate probe).err = some .emptyFilterValues) := by
  constructor
  · intro h
    simp [EC2Arguments.Validate, h, checkFilters_of_empty args.Filters hf]
  · intro h
    cases probe with
    | loadConfigError msg => simp [EC2Arguments.Validate, h]
    | getRegionError => simp [EC2Arguments.Validate, h]
    | success r => simp [EC2Arguments.Validate, h, checkFilters_of_empty args.Filters hf]

/-- Witness for C1 amended at a concrete configuration with region set. -/
theorem validate_emptyFilter_witness :
    (({ DefaultEC2SDConfig with
        Region := "us-east-1"
        Filters := [⟨"tag:env", []⟩] } : EC2Arguments).Validate .getRegionError).probeCalls = 0 :=
  ((validate_emptyFilter { DefaultEC2SDConfig with
      Region := "us-east-1"
      Filters := [⟨"tag:env", []⟩] } .getRegionError
    ⟨⟨"tag:env", []⟩, by decide, rfl⟩).1 (by decide)).2

/-- C2 counterexample: with region unset, when `LoadDefaultConfig` fails,
`Validate` propagates the raw external error as-is — not a configuration
error mentioning the region requirement. -/
theorem validate_rawError_cex :
    ((DefaultEC2SDConfig.Validate (.loadConfigError "dial tcp: connection refused")).err
      = some (.rawError "dial tcp: connection refused"))
    ∧ ValidateError.isConfigurationError (.rawError "dial tcp: connection refused") = false
    ∧ ValidateError.message (.rawError "dial tcp: connection refused")
      = "dial tcp: connection refused" := by
  decide

/-- C2 amended: with region unset, when the `GetRegion` query fails `Validate`
returns the configuration error whose message states the region requirement;
but an error from loading ambient credentials is propagated as-is. -/
theorem validate_probe_failure (args : EC2Arguments) (h : args.Region = "") :
    ((args.Validate .getRegionError).err = some .regionRequired
      ∧ ValidateError.isConfigurationError .regionRequired = true
      ∧ ValidateError.message .regionRequired = "EC2 SD configuration requires a region")
    ∧ ∀ msg, (args.Validate (.loadConfigError msg)).err = some (.rawError msg) := by
  refine ⟨⟨?_, rfl, rfl⟩, fun msg => ?_⟩ <;> simp [EC2Arguments.Validate, h]

/-- Witness for C2 amended at the default configuration. -/
theorem validate_probe_failure_witness :
    (DefaultEC2SDConfig.Validate .getRegionError).err = some .regionRequired :=
  (validate_probe_failure DefaultEC2SDConfig rfl).1.1

/-- C3 counterexample: `SetToDefault` does not leave already-set fields
unchanged — a configuration whose port was set to 9090 has port 80 after
`SetToDefault`. -/
theorem setToDefault_overwrites_cex :
    (({ DefaultEC2SDConfig with Port := 9090 } : EC2Arguments).Port = 9090)
    ∧ (({ DefaultEC2SDConfig with Port := 9090 } : EC2Arguments).SetToDefault.Port = 80) := by
  decide

/-- C3 amended: `SetToDefault` replaces the whole configuration with the
documented default value — port 80, refresh interval 60 seconds, zero values
elsewhere — discarding any previously set fields. -/
theorem setToDefault_replaces (args : EC2Arguments) :
    args.SetToDefault = DefaultEC2SDConfig
    ∧ DefaultEC2SDConfig.Port = 80
    ∧ DefaultEC2SDConfig.RefreshInterval = 60 * 1000000000 :=
  ⟨rfl, rfl, rfl⟩

/-- C4 counterexample: a configuration with a filter whose name is empty (but
whose value set is non-empty) passes `Validate`, so empty filter names are
not impossible at `Convert`. -/
theorem validate_empty_name_cex :
    ((({ DefaultEC2SDConfig with
        Region := "us-east-1"
        Filters := [⟨"", ["running"]⟩] } : EC2Arguments).Validate .getRegionError).err = none)
    ∧ (({ DefaultEC2SDConfig with
        Region := "us-east-1"
        Filters := [⟨"", ["running"]⟩] } : EC2Arguments).Filters.map EC2Filter.Name = [""]) := by
  decide

/-- C4 amended: every configuration that passes `Validate` has no filter with
an empty value set (and `Validate` hands `Convert` exactly the input filters);
empty filter names are not checked and can reach `Convert`. -/
theorem validate_pass_values_nonempty (args : EC2Arguments) (probe : ProbeOutcome)
    (h : (args.Validate probe).err = none) :
    (args.Validate probe).args.Filters = args.Filters
    ∧ ∀ f ∈ args.Filters, f.Values ≠ [] := by
  by_cases hr : args.Region = ""
  · cases probe with
    | loadConfigError msg => simp [EC2Arguments.Validate, hr] at h
    | getRegionError => simp [EC2Arguments.Validate, hr] at h
    | success r =>
      cases hcf : checkFilters args.Filters with
      | none =>
        exact ⟨by simp [EC2Arguments.Validate, hr, hcf],
          (checkFilters_eq_none_iff args.Filters).mp hcf⟩
      | some e => simp [EC2Arguments.Validate, hr, hcf] at h
  · cases hcf : checkFilters args.Filters with
    | none =>
      exact ⟨by simp [EC2Arguments.Validate, hr, hcf],
        (checkFilters_eq_none_iff args.Filters).mp hcf⟩
    | some e => simp [EC2Arguments.Validate, hr, hcf] at h

/-- Witness for C4 amended at a concrete passing configuration. -/
theorem validate_pass_values_nonempty_witness :
    (({ DefaultEC2SDConfig with
        Region := "us-east-1"
        Filters := [⟨"instance-state-name", ["running"]⟩] } : EC2Arguments).Validate
      .getRegionError).args.Filters
    = ({ DefaultEC2SDConfig with
        Region := "us-east-1"
        Filters := [⟨"instance-state-name", ["running"]⟩] } : EC2Arguments).Filters :=
  (validate_pass_values_nonempty { DefaultEC2SDConfig with
      Region := "us-east-1"
      Filters := [⟨"instance-state-name", ["running"]⟩] } .getRegionError (by decide)).1

/-- C5: with region unset, valid filters, and the probe succeeding with
region string us-east-1, `Validate` succeeds and the validated configuration
carries region us-east-1 — the resolved region is written back. -/
theorem validate_probe_success_writes_region (args : EC2Arguments)
    (h : args.Region = "") (hf : ∀ f ∈ args.Filters, f.Values ≠ []) :
    ((args.Validate (.success "us-east-1")).err = none)
    ∧ (args.Validate (.success "us-east-1")).args.Region = "us-east-1" := by
  simp [EC2Arguments.Validate, h, (checkFilters_eq_none_iff args.Filters).mpr hf]

/-- Witness for C5 at the default configuration. -/
theorem validate_probe_success_writes_region_witness :
    (DefaultEC2SDConfig.Validate (.success "us-east-1")).args.Region = "us-east-1" :=
  (validate_probe_success_writes_region DefaultEC2SDConfig rfl (by decide)).2

/-- C6: with region set (non-empty), `Validate` never attempts the probe
(probe count 0), and it succeeds exactly when every filter has at least one
value. -/
theorem validate_region_set_no_probe (args : EC2Arguments) (probe : ProbeOutcome)
    (h : args.Region ≠ "") :
    (args.Validate probe).probeCalls = 0
    ∧ ((args.Validate probe).err = none ↔ ∀ f ∈ args.Filters, f.Values ≠ []) := by
  cases hcf : checkFilters args.Filters with
  | none =>
    have hall := (checkFilters_eq_none_iff args.Filters).mp hcf
    have herr : (args.Validate probe).err = none := by
      simp [EC2Arguments.Validate, h, hcf]
    exact ⟨by simp [EC2Arguments.Validate, h, hcf], iff_of_true herr hall⟩
  | some e =>
    have hno : ¬ ∀ f ∈ args.Filters, f.Values ≠ [] := by
      intro hall
      rw [(checkFilters_eq_none_iff args.Filters).mpr hall] at hcf
      cases hcf
    simp [EC2Arguments.Validate, h, hcf, hno]

/-- Witness for C6 at a concrete configuration with region set. -/
theorem validate_region_set_no_probe_witness :
    (({ DefaultEC2SDConfig with Region := "eu-west-1" } : EC2Arguments).Validate
      (.success "other")).probeCalls = 0 :=
  (validate_region_set_no_probe { DefaultEC2SDConfig with Region := "eu-west-1" }
    (.success "other") (by decide)).1

/-- C7: `SetToDefault` is idempotent — applying it twice equals applying it
once, for every configuration. -/
theorem setToDefault_idempotent (args : EC2Arguments) :
    args.SetToDefault.SetToDefault = args.SetToDefault :=
  rfl

/-- C8: `Convert` copies endpoint, region, access key, secret key, profile,
role ARN, refresh interval and port verbatim, and maps the filter list
element-wise (same length, each filter keeping its name and values, order
preserved); being a plain function of the input, it is pure, total and
validates nothing. -/
theorem convert_copies_fields (args : EC2Arguments) :
    (args.Convert.Endpoint = args.Endpoint
      ∧ args.Convert.Region = args.Region
      ∧ args.Convert.AccessKey = args.AccessKey
      ∧ args.Convert.SecretKey = args.SecretKey
      ∧ args.Convert.Profile = args.Profile
      ∧ args.Convert.RoleARN = args.RoleARN
      ∧ args.Convert.RefreshInterval = args.RefreshInterval
      ∧ args.Convert.Port = args.Port)
    ∧ args.Convert.Filters.length = args.Filters.length
    ∧ args.Convert.Filters = args.Filters.map (fun f => ⟨f.Name, f.Values⟩) := by
  refine ⟨⟨rfl, rfl, rfl, rfl, rfl, rfl, rfl, rfl⟩, ?_, rfl⟩
  simp [EC2Arguments.Convert]

/-- C9: `Validate` modifies no field other than `Region`; in particular, when
the region is initially non-empty the arguments come back entirely unchanged,
whether validation succeeds or fails. -/
theorem validate_frame (args : EC2Arguments) (probe : ProbeOutcome) :
    ((args.Validate probe).args.Endpoint = args.Endpoint
      ∧ (args.Validate probe).args.AccessKey = args.AccessKey
      ∧ (args.Validate probe).args.SecretKey = args.SecretKey
      ∧ (args.Validate probe).args.Profile = args.Profile
      ∧ (args.Validate probe).args.RoleARN = args.RoleARN
      ∧ (args.Validate probe).args.RefreshInterval = args.RefreshInterval
      ∧ (args.Validate probe).args.Port = args.Port
      ∧ (args.Validate probe).args.Filters = args.Filters
      ∧ (args.Validate probe).args.HTTPClientConfig = args.HTTPClientConfig)
    ∧ (args.Region ≠ "" → (args.Validate probe).args = args) := by
  by_cases hr : args.Region = ""
  · cases probe with
    | loadConfigError msg => simp [EC2Arguments.Validate, hr]
    | getRegionError => simp [EC2Arguments.Validate, hr]
    | success r =>
      cases hcf : checkFilters args.Filters <;> simp [EC2Arguments.Validate, hr, hcf]
  · cases hcf : checkFilters args.Filters <;> simp [EC2Arguments.Validate, hr, hcf]

/-- Witness for C9 at a concrete configuration with region set. -/
theorem validate_frame_witness :
    (({ DefaultEC2SDConfig with Region := "us-east-1" } : EC2Arguments).Validate
      (.success "other")).args = { DefaultEC2SDConfig with Region := "us-east-1" } :=
  (validate_frame { DefaultEC2SDConfig with Region := "us-east-1" } (.success "other")).2
    (by decide)

/-- C10: `Validate` is not atomic on error — for the configuration with
region unset and one filter with zero values, under a succeeding probe it
returns the empty-filter-values error and yet has already overwritten the
region field with the probed value. -/
theorem validate_not_atomic_on_error :
    ((({ DefaultEC2SDConfig with Filters := [⟨"tag:env", []⟩] } : EC2Arguments).Validate
        (.success "us-east-1")).err = some .emptyFilterValues)
    ∧ ((({ DefaultEC2SDConfig with Filters := [⟨"tag:env", []⟩] } : EC2Arguments).Validate
        (.success "us-east-1")).args.Region = "us-east-1")
    ∧ (({ DefaultEC2SDConfig with Filters := [⟨"tag:env", []⟩] } : EC2Arguments).Region = "") := by
  decide

end EC2
